import Mathlib

/-!
Verification development for the MCP Telegram server (src/main.py).

The development shallowly embeds the session layer, the JSON-RPC router,
the tool registry and the send-message tool handler as executable Lean
functions, and proves the spec claims about them. Python dictionaries are
modelled as association lists with first-match lookup, machine-level JSON
values as the inductive type Json below, and the external Telegram call as
an opaque function supplied through a TelegramEnv record.
-/

set_option linter.unusedVariables false

/-- JSON values, the payload type of params, results and schemas. -/
inductive Json where
  | null
  | bool (b : Bool)
  | num (n : Int)
  | str (s : String)
  | arr (xs : List Json)
  | obj (kvs : List (String × Json))
deriving Repr, Inhabited

mutual

def decJson (a b : Json) : Decidable (a = b) := by
  cases a <;> cases b <;>
    first
      | exact isTrue rfl
      | exact isFalse fun h => Json.noConfusion h
      | skip
  case bool.bool x y =>
    exact decidable_of_iff (x = y) ⟨fun h => by rw [h], fun h => Json.bool.inj h⟩
  case num.num x y =>
    exact decidable_of_iff (x = y) ⟨fun h => by rw [h], fun h => Json.num.inj h⟩
  case str.str x y =>
    exact decidable_of_iff (x = y) ⟨fun h => by rw [h], fun h => Json.str.inj h⟩
  case arr.arr xs ys =>
    have d := decJsonList xs ys
    exact decidable_of_iff (xs = ys) ⟨fun h => by rw [h], fun h => Json.arr.inj h⟩
  case obj.obj xs ys =>
    have d := decJsonObj xs ys
    exact decidable_of_iff (xs = ys) ⟨fun h => by rw [h], fun h => Json.obj.inj h⟩

def decJsonList (xs ys : List Json) : Decidable (xs = ys) := by
  cases xs with
  | nil =>
    cases ys with
    | nil => exact isTrue rfl
    | cons y ys => exact isFalse fun h => List.noConfusion h
  | cons x xs =>
    cases ys with
    | nil => exact isFalse fun h => List.noConfusion h
    | cons y ys =>
      have hd := decJson x y
      have tl := decJsonList xs ys
      exact decidable_of_iff (x = y ∧ xs = ys)
        ⟨fun h => by rw [h.1, h.2], fun h => List.cons.inj h⟩

def decJsonObj (xs ys : List (String × Json)) : Decidable (xs = ys) := by
  cases xs with
  | nil =>
    cases ys with
    | nil => exact isTrue rfl
    | cons q qs => exact isFalse fun h => List.noConfusion h
  | cons p ps =>
    cases ys with
    | nil => exact isFalse fun h => List.noConfusion h
    | cons q qs =>
      rcases p with ⟨k, v⟩
      rcases q with ⟨l, w⟩
      have hv := decJson v w
      have hp : Decidable ((k, v) = (l, w)) :=
        decidable_of_iff (k = l ∧ v = w)
          ⟨fun h => by rw [h.1, h.2], fun h => ⟨congrArg Prod.fst h, congrArg Prod.snd h⟩⟩
      have tl := decJsonObj ps qs
      exact decidable_of_iff ((k, v) = (l, w) ∧ ps = qs)
        ⟨fun h => by rw [h.1, h.2], fun h => List.cons.inj h⟩

end

instance : DecidableEq Json := decJson

/-- Python truthiness of a JSON value: None, False, 0, empty string, empty
list and empty dict are falsy, everything else truthy. -/
def truthy : Json → Bool
  | .null => false
  | .bool b => b
  | .num n => n != 0
  | .str s => s ≠ ""
  | .arr xs => !xs.isEmpty
  | .obj kvs => !kvs.isEmpty

/-- Truthiness of the result of dict.get: an absent key yields None, which
is falsy. -/
def truthyOpt : Option Json → Bool
  | none => false
  | some v => truthy v

/-- Python dict.get(k) on an association list: first binding wins (literal
dicts in the source have unique keys). -/
def dictGet (kvs : List (String × Json)) (k : String) : Option Json :=
  (kvs.find? (fun kv => kv.1 = k)).map (fun kv => kv.2)

/-- Python type name of a JSON value, used in AttributeError messages. -/
def pyTypeName : Json → String
  | .null => "NoneType"
  | .bool _ => "bool"
  | .num _ => "int"
  | .str _ => "str"
  | .arr _ => "list"
  | .obj _ => "dict"

mutual

/-- Python repr() of a JSON value (strings quoted, containers recursive),
the rendering used for values nested inside containers. -/
def pyRepr : Json → String
  | .null => "None"
  | .bool true => "True"
  | .bool false => "False"
  | .num n => toString n
  | .str s => "\x27" ++ s ++ "\x27"
  | .arr xs => "[" ++ String.intercalate ", " (pyReprList xs) ++ "]"
  | .obj kvs => "\x7b" ++ String.intercalate ", " (pyReprObj kvs) ++ "\x7d"

def pyReprList : List Json → List String
  | [] => []
  | x :: xs => pyRepr x :: pyReprList xs

def pyReprObj : List (String × Json) → List String
  | [] => []
  | (k, v) :: kvs => ("\x27" ++ k ++ "\x27: " ++ pyRepr v) :: pyReprObj kvs

end

/-- Python str() of a JSON value, the rendering used by f-string
interpolation: a top-level string is unquoted, all else as repr. -/
def pyStr : Json → String
  | .str s => s
  | v => pyRepr v

/-- A lowercase hexadecimal digit. -/
def hexChar (n : Nat) : Char :=
  if n < 10 then Char.ofNat (48 + n) else Char.ofNat (87 + n)

/-- Four hexadecimal digits, most significant first. -/
def hex4 (n : Nat) : String :=
  String.mk [hexChar (n / 4096 % 16), hexChar (n / 256 % 16),
             hexChar (n / 16 % 16), hexChar (n % 16)]

/-- A backslash-u escape as json.dumps emits it. -/
def uEscape (n : Nat) : String := "\\u" ++ hex4 n

/-- Escaping of one character inside a JSON string literal, as json.dumps
with default ensure_ascii performs it: backslash, quote and the shorthand
control escapes, backslash-u for the remaining control characters and for
everything outside printable ASCII, with surrogate pairs beyond the basic
plane. -/
def escapeJsonChar : Char → String
  | '\\' => "\\\\"
  | '\"' => "\\\""
  | '\n' => "\\n"
  | '\t' => "\\t"
  | '\r' => "\\r"
  | c =>
    if c.toNat = 8 then "\\b"
    else if c.toNat = 12 then "\\f"
    else if c.toNat < 32 then uEscape c.toNat
    else if c.toNat < 127 then String.singleton c
    else if c.toNat < 65536 then uEscape c.toNat
    else
      uEscape (55296 + (c.toNat - 65536) / 1024) ++
        uEscape (56320 + (c.toNat - 65536) % 1024)

def escapeJson (s : String) : String :=
  String.join (s.toList.map escapeJsonChar)

mutual

/-- json.dumps with default separators (", " between items, ": " after
keys), as used to serialize the response envelope in message_endpoint
(src/main.py line 403). -/
def dumps : Json → String
  | .null => "null"
  | .bool true => "true"
  | .bool false => "false"
  | .num n => toString n
  | .str s => "\"" ++ escapeJson s ++ "\""
  | .arr xs => "[" ++ String.intercalate ", " (dumpsList xs) ++ "]"
  | .obj kvs => "\x7b" ++ String.intercalate ", " (dumpsObj kvs) ++ "\x7d"

def dumpsList : List Json → List String
  | [] => []
  | x :: xs => dumps x :: dumpsList xs

def dumpsObj : List (String × Json) → List String
  | [] => []
  | (k, v) :: kvs => ("\"" ++ escapeJson k ++ "\": " ++ dumps v) :: dumpsObj kvs

end

def indentPad (lvl : Nat) : String :=
  String.join (List.replicate lvl "  ")

mutual

/-- json.dumps with indent=2, as used by handle_tools_call to embed the
tool result in the text content item (src/main.py line 212). -/
def dumpsIndentAux (lvl : Nat) : Json → String
  | .arr [] => "[]"
  | .arr xs =>
    "[\n" ++ String.intercalate ",\n" (dumpsIndentListAux (lvl + 1) xs) ++
      "\n" ++ indentPad lvl ++ "]"
  | .obj [] => "\x7b\x7d"
  | .obj kvs =>
    "\x7b\n" ++ String.intercalate ",\n" (dumpsIndentObjAux (lvl + 1) kvs) ++
      "\n" ++ indentPad lvl ++ "\x7d"
  | v => dumps v

def dumpsIndentListAux (lvl : Nat) : List Json → List String
  | [] => []
  | x :: xs => (indentPad lvl ++ dumpsIndentAux lvl x) :: dumpsIndentListAux lvl xs

def dumpsIndentObjAux (lvl : Nat) : List (String × Json) → List String
  | [] => []
  | (k, v) :: kvs =>
    (indentPad lvl ++ "\"" ++ escapeJson k ++ "\": " ++ dumpsIndentAux lvl v) ::
      dumpsIndentObjAux lvl kvs

end

def dumpsIndent2 (v : Json) : String := dumpsIndentAux 0 v

/-- The pydantic JSONRPCRequest model (src/main.py lines 42-46). -/
structure JSONRPCRequest where
  jsonrpc : String := "2.0"
  id : Option Json := none
  method : String
  params : Option (List (String × Json)) := none

/-- The pydantic JSONRPCNotification model (src/main.py lines 56-59). -/
structure JSONRPCNotification where
  method : String
  params : Option (List (String × Json)) := none
deriving Repr, DecidableEq

/-- A JSON-RPC error object as built by the router. -/
structure RpcError where
  code : Int
  message : String
deriving Repr, DecidableEq

/-- The response dict built by handle_mcp_request: id always present,
and exactly the branch taken determines which of result and error is a
key of the dict. -/
structure RpcResponse where
  id : Option Json
  result : Option Json
  error : Option RpcError
deriving Repr, DecidableEq

/-- The response dict as a JSON value, with the key layout of the three
dict literals in handle_mcp_request (src/main.py lines 229-262). -/
def RpcResponse.toJson (r : RpcResponse) : Json :=
  match r.result, r.error with
  | some v, _ =>
    Json.obj [("jsonrpc", Json.str "2.0"), ("id", r.id.getD Json.null), ("result", v)]
  | none, some e =>
    Json.obj [("jsonrpc", Json.str "2.0"), ("id", r.id.getD Json.null),
      ("error", Json.obj [("code", Json.num e.code), ("message", Json.str e.message)])]
  | none, none =>
    Json.obj [("jsonrpc", Json.str "2.0"), ("id", r.id.getD Json.null)]

/-- Capacity of both per-session queues (asyncio.Queue maxsize=100,
src/main.py lines 66-67). -/
def queueMaxsize : Nat := 100

/-- The SSESession class state (src/main.py lines 63-69). Queues are
modelled as FIFO lists, newest element last. -/
structure SSESession where
  session_id : String
  event_queue : List String
  notification_queue : List JSONRPCNotification
  initialized : Bool
  closed : Bool
deriving Repr, DecidableEq

/-- SSESession.__init__: fresh session with empty queues. -/
def SSESession.new (session_id : String) : SSESession :=
  ⟨session_id, [], [], false, false⟩

/-- SSESession.send_event (src/main.py lines 71-79). Returns the updated
session, the boolean result, and whether the queue-full warning was
logged. put_nowait raises QueueFull exactly when the queue already holds
maxsize items; the call never blocks. -/
def SSESession.send_event (s : SSESession) (event : String) :
    SSESession × Bool × Bool :=
  if s.closed then (s, false, false)
  else if s.event_queue.length < queueMaxsize then
    ({ s with event_queue := s.event_queue ++ [event] }, true, false)
  else (s, false, true)

/-- SSESession.send_notification (src/main.py lines 81-89), same contract
on the notification queue. -/
def SSESession.send_notification (s : SSESession) (n : JSONRPCNotification) :
    SSESession × Bool × Bool :=
  if s.closed then (s, false, false)
  else if s.notification_queue.length < queueMaxsize then
    ({ s with notification_queue := s.notification_queue ++ [n] }, true, false)
  else (s, false, true)

/-- SSESession.close (src/main.py lines 91-92). -/
def SSESession.close (s : SSESession) : SSESession :=
  { s with closed := true }

/-- One call against a session, for reasoning about call sequences. -/
inductive SessionOp where
  | sendEvent (event : String)
  | sendNotification (n : JSONRPCNotification)
  | close

/-- Apply one call; enqueue calls yield some boolean result, close yields
none. -/
def applyOp (s : SSESession) : SessionOp → SSESession × Option Bool
  | .sendEvent e => ((s.send_event e).1, some (s.send_event e).2.1)
  | .sendNotification n => ((s.send_notification n).1, some (s.send_notification n).2.1)
  | .close => (s.close, none)

/-- Run a sequence of calls, collecting the final state and all results. -/
def runOps (s : SSESession) : List SessionOp → SSESession × List (Option Bool)
  | [] => (s, [])
  | op :: ops =>
    ((runOps (applyOp s op).1 ops).1,
     (applyOp s op).2 :: (runOps (applyOp s op).1 ops).2)

/-- The HTTPException carrier (status code and detail string). -/
structure HTTPException where
  status_code : Int
  detail : String
deriving Repr, DecidableEq

/-- The argument record of the external telegram_bot.send_message call. -/
structure SendParams where
  chat_id : String
  text : Json
  parse_mode : String
deriving Repr, DecidableEq

/-- Outcome of the external Telegram call: the fields of the returned
message object on success, or a failure message. -/
inductive SendOutcome where
  | sent (message_id : Int) (chat_id : Int) (text : String)
  | failed (errMsg : String)
deriving Repr, DecidableEq

/-- The process globals the handler reads: whether telegram_bot is set
(truthy), settings.telegram_chat_id, and the external send call itself,
which the spec treats as an opaque collaborator. -/
structure TelegramEnv where
  bot_initialized : Bool
  telegram_chat_id : String
  send_message : SendParams → SendOutcome

/-- How a handler coroutine finishes: a returned value, a raised
HTTPException, or any other raised Python exception (message only). -/
inductive HandlerOutcome where
  | ok (v : Json)
  | httpExc (e : HTTPException)
  | pyExc (msg : String)
deriving Repr, DecidableEq

/-- handle_send_message (src/main.py lines 115-139). The handler receives
whatever value sat under the arguments key; a non-dict value raises
AttributeError at params.get, surfacing as a generic Python exception.
The second component records the send attempts actually forwarded to the
external call. -/
def handle_send_message (env : TelegramEnv) (params : Json) :
    HandlerOutcome × List SendParams :=
  if env.bot_initialized = false then
    (HandlerOutcome.httpExc ⟨500, "Telegram bot not initialized"⟩, [])
  else
    match params with
    | Json.obj kvs =>
      if truthyOpt (dictGet kvs "message") = false then
        (HandlerOutcome.httpExc ⟨400, "Missing \x27message\x27 parameter"⟩, [])
      else
        let sp : SendParams :=
          ⟨env.telegram_chat_id, (dictGet kvs "message").getD Json.null,
           if dictGet kvs "parse_mode" = some (Json.str "MarkdownV2")
           then "MarkdownV2" else "Markdown"⟩
        ((match env.send_message sp with
          | SendOutcome.sent mid cid txt =>
            HandlerOutcome.ok (Json.obj
              [("success", Json.bool true), ("message_id", Json.num mid),
               ("chat_id", Json.num cid), ("text", Json.str txt)])
          | SendOutcome.failed m =>
            HandlerOutcome.httpExc ⟨500, "Failed to send message: " ++ m⟩),
         [sp])
    | v =>
      (HandlerOutcome.pyExc
        ("\x27" ++ pyTypeName v ++ "\x27 object has no attribute \x27get\x27"), [])

/-- The inputSchema dict of the send_message tool (src/main.py lines
152-167), verbatim. -/
def send_message_input_schema : Json := Json.obj
  [("type", Json.str "object"),
   ("properties", Json.obj
     [("message", Json.obj
        [("type", Json.str "string"),
         ("description", Json.str "The message text to send")]),
      ("parse_mode", Json.obj
        [("type", Json.str "string"),
         ("enum", Json.arr [Json.str "Markdown", Json.str "MarkdownV2", Json.str "HTML"]),
         ("description", Json.str "Text formatting mode"),
         ("default", Json.str "Markdown")])]),
   ("required", Json.arr [Json.str "message"])]

/-- The schema dict of the send_message tool (src/main.py lines 150-168). -/
def send_message_schema : Json := Json.obj
  [("name", Json.str "send_message"),
   ("description", Json.str "Send a text message via Telegram"),
   ("inputSchema", send_message_input_schema)]

/-- The TOOLS registry keys and schemas (src/main.py lines 146-170); the
sole handler is handle_send_message. -/
def TOOLS : List (String × Json) := [("send_message", send_message_schema)]

/-- The membership test tool_name not in TOOLS (src/main.py line 202):
dict membership hashes the key first, so an unhashable value (a list or a
dict) raises TypeError; for hashable values only a string equal to a
registry key is a member, and None, numbers and booleans are simply not
keys. -/
def tool_membership : Option Json → Except String Bool
  | some (Json.arr _) => Except.error "unhashable type: \x27list\x27"
  | some (Json.obj _) => Except.error "unhashable type: \x27dict\x27"
  | some (Json.str n) => Except.ok ((TOOLS.map Prod.fst).contains n)
  | _ => Except.ok false

/-- handle_tools_call (src/main.py lines 197-215): extract name and
arguments, propagate the TypeError of testing an unhashable name for
membership, reject unknown tools with a 400 HTTPException, otherwise run
the registry handler (send_message is the only entry) and wrap its result
as one text content item holding the indent=2 JSON encoding. The middle
component lists the tool handlers invoked. -/
def handle_tools_call (env : TelegramEnv) (params : List (String × Json)) :
    HandlerOutcome × List String × List SendParams :=
  let tool_name := dictGet params "name"
  let tool_params := (dictGet params "arguments").getD (Json.obj [])
  match tool_membership tool_name with
  | Except.error msg => (HandlerOutcome.pyExc msg, [], [])
  | Except.ok known =>
    if known = false then
      (HandlerOutcome.httpExc
        ⟨400, "Unknown tool: " ++ pyStr (tool_name.getD Json.null)⟩, [], [])
    else
    match handle_send_message env tool_params with
    | (HandlerOutcome.ok result, sends) =>
      (HandlerOutcome.ok (Json.obj
        [("content", Json.arr [Json.obj
           [("type", Json.str "text"),
            ("text", Json.str (dumpsIndent2 result))]])]),
       ["send_message"], sends)
    | (out, sends) => (out, ["send_message"], sends)

/-- The fixed result of handle_initialize (src/main.py lines 174-188). -/
def handle_initialize_result : Json := Json.obj
  [("protocolVersion", Json.str "2024-11-05"),
   ("capabilities", Json.obj [("tools", Json.obj [])]),
   ("serverInfo", Json.obj
     [("name", Json.str "telegram-mcp-server"),
      ("version", Json.str "1.0.0")])]

/-- The result of handle_tools_list (src/main.py lines 191-194). -/
def handle_tools_list_result : Json :=
  Json.obj [("tools", Json.arr [send_message_schema])]

/-- handle_mcp_request (src/main.py lines 219-262): route by method name,
wrap a handler result on success, translate a raised HTTPException to an
error with its own status code, any other exception to -32603, and an
unknown method to -32601; the request id is echoed in every branch. The
return value is the response envelope, the updated session (initialize
sets the initialized flag), the tool handlers invoked, and the external
send attempts made. -/
def handle_mcp_request (env : TelegramEnv) (request : JSONRPCRequest)
    (session : SSESession) :
    RpcResponse × SSESession × List String × List SendParams :=
  if request.method = "initialize" then
    (⟨request.id, some handle_initialize_result, none⟩,
     { session with initialized := true }, [], [])
  else if request.method = "tools/list" then
    (⟨request.id, some handle_tools_list_result, none⟩, session, [], [])
  else if request.method = "tools/call" then
    match handle_tools_call env (request.params.getD []) with
    | (HandlerOutcome.ok v, invoked, sends) =>
      (⟨request.id, some v, none⟩, session, invoked, sends)
    | (HandlerOutcome.httpExc e, invoked, sends) =>
      (⟨request.id, none, some ⟨e.status_code, e.detail⟩⟩, session, invoked, sends)
    | (HandlerOutcome.pyExc m, invoked, sends) =>
      (⟨request.id, none, some ⟨-32603, "Internal error: " ++ m⟩⟩, session, invoked, sends)
  else
    (⟨request.id, none, some ⟨-32601, "Method not found: " ++ request.method⟩⟩,
     session, [], [])

/-- The delivery path of message_endpoint after the session has been
looked up open (src/main.py lines 393-407): route the request, serialize
the envelope, and hand the framed event directly to send_event. The dict
response is always non-empty, so the truthiness guard on it always
passes. -/
def message_endpoint (env : TelegramEnv) (session : SSESession)
    (body : JSONRPCRequest) : SSESession × List String × List SendParams :=
  let routed := handle_mcp_request env body session
  let event := "event: message\ndata: " ++ dumps (RpcResponse.toJson routed.1) ++ "\n\n"
  (((routed.2.1).send_event event).1, routed.2.2.1, routed.2.2.2)

/-- JSON-Schema validation of an arguments mapping against the advertised
inputSchema of send_message, stated from the spec words: message is
required and must be a string, parse_mode is optional and must be one of
exactly Markdown, MarkdownV2, HTML; additional properties are allowed. -/
def validates_send_input_schema (args : List (String × Json)) : Bool :=
  (match dictGet args "message" with
   | some (Json.str _) => true
   | _ => false) &&
  (match dictGet args "parse_mode" with
   | none => true
   | some (Json.str s) => s = "Markdown" || s = "MarkdownV2" || s = "HTML"
   | some _ => false)

/-- A concrete environment: bot connected, configured chat id, external
send stubbed to succeed. -/
def env_ok : TelegramEnv :=
  ⟨true, "configured-chat", fun _ => SendOutcome.sent 1 1 "ok"⟩

/-- Whether handle_send_message accepts an arguments mapping, with the
bot connected and the external send succeeding, so that acceptance
reflects argument validation alone. -/
def handler_accepts (args : List (String × Json)) : Bool :=
  match (handle_send_message env_ok (Json.obj args)).1 with
  | HandlerOutcome.ok _ => true
  | _ => false

/-- The exit routes of the sse_event_stream generator (src/main.py lines
301-354): the wire loop ending because the session closed; the wire loop
breaking on an unexpected in-loop exception; cancellation of the stream
(client disconnect or shutdown) raising GeneratorExit or CancelledError
at a yield, which the except Exception clause does not catch; and an
Exception escaping the try body into that clause. -/
inductive DriverExitRoute where
  | wire_loop_exit
  | wire_loop_error
  | cancelled
  | try_exception
deriving Repr, DecidableEq

/-- The teardown steps the source distinguishes. -/
inductive TeardownAction where
  | cancel_relay_task
  | await_relay_cancellation
  | close_session
  | remove_from_registry
deriving Repr, DecidableEq

/-- The teardown steps executed on each exit route, read off the source
control flow: the relay-task cancel and its await sit inside the try
block after the wire loop (src/main.py lines 342-347), so they run only
when the wire loop itself finishes; session.close and the registry
removal sit in the finally block (lines 351-354) and run on every
route. -/
def driver_teardown : DriverExitRoute → List TeardownAction
  | .wire_loop_exit =>
    [.cancel_relay_task, .await_relay_cancellation, .close_session, .remove_from_registry]
  | .wire_loop_error =>
    [.cancel_relay_task, .await_relay_cancellation, .close_session, .remove_from_registry]
  | .cancelled => [.close_session, .remove_from_registry]
  | .try_exception => [.close_session, .remove_from_registry]

/-! ## Theorems -/

/-- Helper: routing a request never touches the session queues or the
closed flag; only the initialized flag may change. -/
theorem handle_mcp_request_preserves_session_queues (env : TelegramEnv)
    (request : JSONRPCRequest) (session : SSESession) :
    (handle_mcp_request env request session).2.1.event_queue = session.event_queue ∧
    (handle_mcp_request env request session).2.1.notification_queue = session.notification_queue ∧
    (handle_mcp_request env request session).2.1.closed = session.closed := by
  unfold handle_mcp_request
  split_ifs
  · exact ⟨rfl, rfl, rfl⟩
  · exact ⟨rfl, rfl, rfl⟩
  · rcases h : handle_tools_call env (request.params.getD []) with ⟨out, inv, snd⟩
    cases out <;> simp [h]
  · exact ⟨rfl, rfl, rfl⟩

/-- Claim C1, counterexample: on a fresh open session, handling an
initialize call through the call endpoint leaves the notification queue
empty and untouched, while the serialized response lands on the raw-event
queue, so the response is not enqueued as a notification and does not
funnel through the relay loop. -/
theorem c1_counterexample :
    (message_endpoint env_ok (SSESession.new "s1")
        ⟨"2.0", some (Json.num 1), "initialize", none⟩).1.notification_queue = [] ∧
    (message_endpoint env_ok (SSESession.new "s1")
        ⟨"2.0", some (Json.num 1), "initialize", none⟩).1.event_queue ≠ [] := by
  exact ⟨rfl, by decide⟩

/-- Claim C1, amended: for every inbound call handled by the call
endpoint on an open session with queue room, the response envelope is
serialized and placed directly on the raw-event queue via send_event by
the router caller; the notification queue is not involved. -/
theorem c1_response_enqueued_directly_to_event_queue (env : TelegramEnv)
    (session : SSESession) (body : JSONRPCRequest)
    (hopen : session.closed = false)
    (hroom : session.event_queue.length < queueMaxsize) :
    (message_endpoint env session body).1.notification_queue = session.notification_queue ∧
    (message_endpoint env session body).1.event_queue =
      session.event_queue ++
        ["event: message\ndata: " ++
         dumps (RpcResponse.toJson (handle_mcp_request env body session).1) ++ "\n\n"] := by
  obtain ⟨he, hn, hc⟩ := handle_mcp_request_preserves_session_queues env body session
  have h1 : (handle_mcp_request env body session).2.1.closed = false := by rw [hc, hopen]
  have h2 : (handle_mcp_request env body session).2.1.event_queue.length < queueMaxsize := by
    rw [he]; exact hroom
  simp [message_endpoint, SSESession.send_event, h1, h2, he, hn, hroom]

/-- Claim C1 witness: the amended claim at a concrete session and
request. -/
theorem c1_witness :
    (message_endpoint env_ok (SSESession.new "w1")
        ⟨"2.0", some (Json.num 2), "tools/list", none⟩).1.notification_queue =
      (SSESession.new "w1").notification_queue ∧
    (message_endpoint env_ok (SSESession.new "w1")
        ⟨"2.0", some (Json.num 2), "tools/list", none⟩).1.event_queue =
      (SSESession.new "w1").event_queue ++
        ["event: message\ndata: " ++
         dumps (RpcResponse.toJson (handle_mcp_request env_ok
           ⟨"2.0", some (Json.num 2), "tools/list", none⟩ (SSESession.new "w1")).1) ++ "\n\n"] :=
  c1_response_enqueued_directly_to_event_queue env_ok (SSESession.new "w1")
    ⟨"2.0", some (Json.num 2), "tools/list", none⟩ rfl (by decide)

/-- Claim C2, counterexample: the advertised inputSchema and the argument
sets handle_send_message accepts disagree in both directions: a mapping
with an out-of-enum parse_mode is rejected by the schema yet accepted by
the handler, and a mapping with an empty-string message validates against
the schema yet is rejected by the handler. -/
theorem c2_counterexample :
    (handler_accepts [("message", Json.str "hi"), ("parse_mode", Json.str "bogus")] = true ∧
     validates_send_input_schema
       [("message", Json.str "hi"), ("parse_mode", Json.str "bogus")] = false) ∧
    (handler_accepts [("message", Json.str "")] = false ∧
     validates_send_input_schema [("message", Json.str "")] = true) :=
  ⟨⟨rfl, rfl⟩, ⟨rfl, rfl⟩⟩

/-- Claim C2, amended: with the bot connected and the external send
succeeding, handle_send_message accepts exactly the argument mappings
whose message value is truthy; parse_mode is never validated, so any
value of it is accepted. -/
theorem c2_handler_accepts_iff_truthy_message (args : List (String × Json)) :
    handler_accepts args = truthyOpt (dictGet args "message") := by
  unfold handler_accepts handle_send_message
  rcases h : truthyOpt (dictGet args "message") with _ | _
  · simp [env_ok, h]
  · simp [env_ok, h]

/-- Claim C3, counterexample: a tools/call whose name is a list is absent
from the tool registry, yet the router does not return a 400-style
application error for it: the dict membership test raises TypeError,
which the generic exception handler flattens to -32603. -/
theorem c3_counterexample :
    (handle_mcp_request env_ok ⟨"2.0", some (Json.num 5), "tools/call",
        some [("name", Json.arr [])]⟩ (SSESession.new "x3")).1.error =
      some ⟨-32603, "Internal error: unhashable type: \x27list\x27"⟩ :=
  rfl

/-- Claim C3, amended: a tools/call whose name is a valid dict key
(anything except a list or a dict) absent from the registry yields a
JSON-RPC error carrying the 400 status of the raised HTTPException —
unhashable name values instead surface as -32603 — and a tools/call on
send_message with the message argument missing yields the 400
parameter-validation error; both are distinct from -32603 and from the
500 of a downstream delivery failure. -/
theorem c3_application_error_codes (env : TelegramEnv) (session : SSESession)
    (idv : Option Json) (params : List (String × Json)) (args : List (String × Json))
    (hname : tool_membership (dictGet params "name") = Except.ok false)
    (hbot : env.bot_initialized = true)
    (hmsg : dictGet args "message" = none) :
    (handle_mcp_request env ⟨"2.0", idv, "tools/call", some params⟩ session).1.error =
      some ⟨400, "Unknown tool: " ++ pyStr ((dictGet params "name").getD Json.null)⟩ ∧
    (handle_mcp_request env ⟨"2.0", idv, "tools/call",
        some [("name", Json.str "send_message"), ("arguments", Json.obj args)]⟩
        session).1.error =
      some ⟨400, "Missing \x27message\x27 parameter"⟩ ∧
    ((400 : Int) ≠ -32603 ∧ (400 : Int) ≠ 500) := by
  refine ⟨?_, ?_, by decide⟩
  · have hcall : handle_tools_call env params =
        (HandlerOutcome.httpExc
          ⟨400, "Unknown tool: " ++ pyStr ((dictGet params "name").getD Json.null)⟩, [], []) := by
      unfold handle_tools_call
      simp [hname]
    unfold handle_mcp_request
    simp [hcall]
  · have hsend : handle_send_message env (Json.obj args) =
        (HandlerOutcome.httpExc ⟨400, "Missing \x27message\x27 parameter"⟩, []) := by
      unfold handle_send_message
      simp [hbot, truthyOpt, hmsg]
    have hcall : handle_tools_call env
        [("name", Json.str "send_message"), ("arguments", Json.obj args)] =
        (HandlerOutcome.httpExc ⟨400, "Missing \x27message\x27 parameter"⟩,
         ["send_message"], []) := by
      show (match handle_send_message env (Json.obj args) with
            | (HandlerOutcome.ok result, sends) =>
              (HandlerOutcome.ok (Json.obj
                [("content", Json.arr [Json.obj
                   [("type", Json.str "text"),
                    ("text", Json.str (dumpsIndent2 result))]])]),
               ["send_message"], sends)
            | (out, sends) => (out, ["send_message"], sends)) =
          (HandlerOutcome.httpExc ⟨400, "Missing \x27message\x27 parameter"⟩,
           ["send_message"], [])
      rw [hsend]
    unfold handle_mcp_request
    simp [hcall]

/-- Claim C3 witness: the two error translations at concrete inputs. -/
theorem c3_witness :
    (handle_mcp_request env_ok ⟨"2.0", some (Json.num 3), "tools/call",
        some [("name", Json.str "no_such_tool")]⟩ (SSESession.new "w3")).1.error =
      some ⟨400, "Unknown tool: " ++
        pyStr ((dictGet [("name", Json.str "no_such_tool")] "name").getD Json.null)⟩ ∧
    (handle_mcp_request env_ok ⟨"2.0", some (Json.num 3), "tools/call",
        some [("name", Json.str "send_message"),
              ("arguments", Json.obj [("parse_mode", Json.str "HTML")])]⟩
        (SSESession.new "w3")).1.error =
      some ⟨400, "Missing \x27message\x27 parameter"⟩ ∧
    ((400 : Int) ≠ -32603 ∧ (400 : Int) ≠ 500) :=
  c3_application_error_codes env_ok (SSESession.new "w3") (some (Json.num 3))
    [("name", Json.str "no_such_tool")] [("parse_mode", Json.str "HTML")]
    rfl rfl rfl

/-- Claim C4: for any method name other than initialize, tools/list and
tools/call, the router returns an envelope whose error has code -32601
and whose message is the Method-not-found text containing the method name
verbatim, with no tool handler invoked and no external send attempted. -/
theorem c4_unknown_method_not_found (env : TelegramEnv) (request : JSONRPCRequest)
    (session : SSESession)
    (h1 : request.method ≠ "initialize")
    (h2 : request.method ≠ "tools/list")
    (h3 : request.method ≠ "tools/call") :
    (handle_mcp_request env request session).1 =
      ⟨request.id, none, some ⟨-32601, "Method not found: " ++ request.method⟩⟩ ∧
    (handle_mcp_request env request session).2.2.1 = [] ∧
    (handle_mcp_request env request session).2.2.2 = [] := by
  unfold handle_mcp_request
  rw [if_neg h1, if_neg h2, if_neg h3]
  exact ⟨rfl, rfl, rfl⟩

/-- Claim C4 witness: the unknown-method envelope for a concrete
request. -/
theorem c4_witness :
    (handle_mcp_request env_ok ⟨"2.0", some (Json.num 7), "resources/list", none⟩
        (SSESession.new "w4")).1 =
      ⟨some (Json.num 7), none, some ⟨-32601, "Method not found: resources/list"⟩⟩ ∧
    (handle_mcp_request env_ok ⟨"2.0", some (Json.num 7), "resources/list", none⟩
        (SSESession.new "w4")).2.2.1 = [] ∧
    (handle_mcp_request env_ok ⟨"2.0", some (Json.num 7), "resources/list", none⟩
        (SSESession.new "w4")).2.2.2 = [] :=
  c4_unknown_method_not_found env_ok ⟨"2.0", some (Json.num 7), "resources/list", none⟩
    (SSESession.new "w4") (by decide) (by decide) (by decide)

/-- Helper: on a closed session a single call leaves the state unchanged
and an enqueue call returns false. -/
theorem applyOp_closed (s : SSESession) (op : SessionOp) (h : s.closed = true) :
    (applyOp s op).1 = s ∧ ((applyOp s op).2 = some false ∨ (applyOp s op).2 = none) := by
  cases op with
  | sendEvent e =>
    refine ⟨?_, Or.inl ?_⟩ <;> simp [applyOp, SSESession.send_event, h]
  | sendNotification n =>
    refine ⟨?_, Or.inl ?_⟩ <;> simp [applyOp, SSESession.send_notification, h]
  | close =>
    refine ⟨?_, Or.inr rfl⟩
    cases s with
    | mk sid eq nq ini cl =>
      subst h
      rfl

/-- Claim C5: once a session is closed, every sequence of send_event and
send_notification calls leaves the session state, both queues included,
unchanged, every enqueue call returns false, and the closed flag remains
true throughout (close only re-asserts it). -/
theorem c5_closed_session_noop (s : SSESession) (ops : List SessionOp)
    (h : s.closed = true) :
    (runOps s ops).1 = s ∧ ∀ r ∈ (runOps s ops).2, r = some false ∨ r = none := by
  induction ops generalizing s with
  | nil => exact ⟨rfl, by intro r hr; simp [runOps] at hr⟩
  | cons op ops ih =>
    obtain ⟨h1, h2⟩ := applyOp_closed s op h
    have hc : (applyOp s op).1.closed = true := by rw [h1]; exact h
    obtain ⟨ih1, ih2⟩ := ih (applyOp s op).1 hc
    refine ⟨?_, ?_⟩
    · show (runOps (applyOp s op).1 ops).1 = s
      rw [ih1, h1]
    · intro r hr
      simp only [runOps, List.mem_cons] at hr
      rcases hr with hr | hr
      · rw [hr]; exact h2
      · exact ih2 r hr

/-- Claim C5 witness: a closed session with items already queued, under a
concrete call sequence. -/
theorem c5_witness :
    (runOps (SSESession.mk "sid" ["ev0"] [⟨"note", none⟩] false true)
      [SessionOp.sendEvent "x", SessionOp.sendNotification ⟨"m", none⟩,
       SessionOp.close]).1 =
      SSESession.mk "sid" ["ev0"] [⟨"note", none⟩] false true :=
  (c5_closed_session_noop (SSESession.mk "sid" ["ev0"] [⟨"note", none⟩] false true)
    [SessionOp.sendEvent "x", SessionOp.sendNotification ⟨"m", none⟩,
     SessionOp.close] rfl).1

/-- Claim C6: on an open session whose raw-event queue already holds 100
items, the next send_event call returns false, logs the queue-full
warning, and leaves the state, hence the queue contents, unchanged; the
embedded put_nowait semantics never blocks. -/
theorem c6_full_event_queue_rejects (s : SSESession) (e : String)
    (hopen : s.closed = false) (hfull : s.event_queue.length = queueMaxsize) :
    s.send_event e = (s, false, true) := by
  simp [SSESession.send_event, hopen, hfull]

/-- Claim C6 witness: a session holding exactly 100 queued events. -/
theorem c6_witness :
    (SSESession.mk "full" (List.replicate 100 "e") [] false false).send_event "x" =
      (SSESession.mk "full" (List.replicate 100 "e") [] false false, false, true) :=
  c6_full_event_queue_rejects (SSESession.mk "full" (List.replicate 100 "e") [] false false)
    "x" rfl (by simp [queueMaxsize])

/-- Claim C7: for every request the router returns an envelope (the
embedding is total: every raised exception is converted, never
propagated), the envelope carries exactly one of a result value or an
error object, and the request id is echoed verbatim in every branch. -/
theorem c7_envelope_exactly_one_of_result_error (env : TelegramEnv)
    (request : JSONRPCRequest) (session : SSESession) :
    (handle_mcp_request env request session).1.id = request.id ∧
    (((handle_mcp_request env request session).1.result.isSome = true ∧
      (handle_mcp_request env request session).1.error = none) ∨
     ((handle_mcp_request env request session).1.result = none ∧
      (handle_mcp_request env request session).1.error.isSome = true)) := by
  unfold handle_mcp_request
  split_ifs
  · exact ⟨rfl, Or.inl ⟨rfl, rfl⟩⟩
  · exact ⟨rfl, Or.inl ⟨rfl, rfl⟩⟩
  · rcases h : handle_tools_call env (request.params.getD []) with ⟨out, inv, snd⟩
    cases out <;> simp [h]
  · exact ⟨rfl, Or.inr ⟨rfl, rfl⟩⟩

/-- Claim C8, counterexample: on the cancellation exit route (client
disconnect or shutdown cancelling the stream at a yield), the relay
task is neither cancelled nor awaited by the driver, because those two
steps sit inside the try block after the wire loop rather than in the
finally block; only close and registry removal run there. -/
theorem c8_counterexample :
    TeardownAction.cancel_relay_task ∉ driver_teardown DriverExitRoute.cancelled ∧
    TeardownAction.await_relay_cancellation ∉ driver_teardown DriverExitRoute.cancelled ∧
    TeardownAction.close_session ∈ driver_teardown DriverExitRoute.cancelled := by
  decide

/-- Claim C8, amended: marking the session closed and removing it from
the registry run exactly once on every exit route of the driver (they
live in the finally block), but cancelling the relay task and awaiting
its cancellation run only on the two routes where the wire loop itself
finishes (normal exit or in-loop error), not on cancellation or on an
exception escaping the try body. -/
theorem c8_teardown_by_route (route : DriverExitRoute) :
    (TeardownAction.close_session ∈ driver_teardown route ∧
     TeardownAction.remove_from_registry ∈ driver_teardown route ∧
     (driver_teardown route).count TeardownAction.close_session = 1 ∧
     (driver_teardown route).count TeardownAction.remove_from_registry = 1) ∧
    (TeardownAction.cancel_relay_task ∈ driver_teardown route ↔
      route = DriverExitRoute.wire_loop_exit ∨ route = DriverExitRoute.wire_loop_error) ∧
    (TeardownAction.await_relay_cancellation ∈ driver_teardown route ↔
      route = DriverExitRoute.wire_loop_exit ∨ route = DriverExitRoute.wire_loop_error) := by
  cases route <;> decide

/-- Claim C9: whenever handle_send_message reaches the external call, the
forwarded parse_mode is MarkdownV2 exactly when the parse_mode argument
is the string MarkdownV2, and Markdown in every other case, the
advertised HTML included; the chat id and text are forwarded alongside. -/
theorem c9_parse_mode_forwarding (env : TelegramEnv) (args : List (String × Json))
    (hbot : env.bot_initialized = true)
    (hmsg : truthyOpt (dictGet args "message") = true) :
    (handle_send_message env (Json.obj args)).2 =
      [⟨env.telegram_chat_id, (dictGet args "message").getD Json.null,
        if dictGet args "parse_mode" = some (Json.str "MarkdownV2")
        then "MarkdownV2" else "Markdown"⟩] := by
  unfold handle_send_message
  simp [hbot, hmsg]

/-- Claim C9 witness: a request asking for HTML formatting is forwarded
with parse_mode Markdown. -/
theorem c9_witness :
    (handle_send_message env_ok
        (Json.obj [("message", Json.str "hi"), ("parse_mode", Json.str "HTML")])).2 =
      [⟨"configured-chat", Json.str "hi", "Markdown"⟩] :=
  c9_parse_mode_forwarding env_ok
    [("message", Json.str "hi"), ("parse_mode", Json.str "HTML")] rfl rfl

/-- Claim C10: handle_send_message raises the 400 Missing-message
validation error for every falsy message value present in the arguments,
not only for an absent key; in particular the empty string, which the
advertised inputSchema accepts as a valid string, is rejected and never
sent. -/
theorem c10_falsy_message_rejected (env : TelegramEnv)
    (args : List (String × Json)) (m : Json)
    (hbot : env.bot_initialized = true)
    (hm : dictGet args "message" = some m) (hf : truthy m = false) :
    handle_send_message env (Json.obj args) =
      (HandlerOutcome.httpExc ⟨400, "Missing \x27message\x27 parameter"⟩, []) ∧
    validates_send_input_schema [("message", Json.str "")] = true := by
  refine ⟨?_, rfl⟩
  unfold handle_send_message
  simp [hbot, truthyOpt, hm, hf]

/-- Claim C10 witness: the empty-string message at a concrete call. -/
theorem c10_witness :
    handle_send_message env_ok (Json.obj [("message", Json.str "")]) =
      (HandlerOutcome.httpExc ⟨400, "Missing \x27message\x27 parameter"⟩, []) ∧
    validates_send_input_schema [("message", Json.str "")] = true :=
  c10_falsy_message_rejected env_ok [("message", Json.str "")] (Json.str "")
    rfl rfl rfl
